import Mathlib

/-!
Shallow embedding of the wind-field visualization pipeline of the
mapy-analityczne repository (src/unnamed/part_000 and src/app.js):
coordinate adaptation (createWindDataAdapter, both variants), the
velocity heatmap (AdvancedVelocityLayer.draw / _draw), the animated
streamline arrows (DynamicStreamlinesLayer.drawAnimatedArrows) and the
particle advection engine (AdvancedWindAnimationLayer.updateParticles).

JavaScript numbers are modelled as rationals (ℚ); absent / undefined
fields as Option.  The JS remainder operator `%` truncates toward zero
(sign of the dividend) and is modelled by jsMod below.
-/

/-- Truncation toward zero, as JavaScript coerces a number to an integer:
`Math.trunc`.  For nonnegative arguments it agrees with the floor. -/
def jsTrunc (q : ℚ) : ℤ :=
  if 0 ≤ q then ⌊q⌋ else -⌊-q⌋

/-- The JavaScript remainder operator `a % b`: `a - b * trunc (a / b)`.
For `b = 0` JavaScript yields NaN; every use in the sources has `b > 0`
(the claims hypothesize this), so the `b = 0` value is immaterial. -/
def jsMod (a b : ℚ) : ℚ :=
  a - b * jsTrunc (a / b)

/-- JavaScript `Math.round x = ⌊x + 0.5⌋`. -/
def jsRound (q : ℚ) : ℤ :=
  ⌊q + 1/2⌋

-- ==========================================================================
-- Data model (SimulationResult, §3 of the spec; fields read by the sources)
-- ==========================================================================

/-- The `spatial_reference.bounds_wgs84` record of the raw JSON. -/
structure RawBounds where
  south : ℚ
  west : ℚ
  north : ℚ
  east : ℚ
  deriving DecidableEq

/-- The `spatial_reference` record; `crs` is a plain string the core never
computes with, so it is omitted. -/
structure SpatialRef where
  bounds_wgs84 : Option RawBounds
  deriving DecidableEq

/-- The `flow_statistics` record. -/
structure FlowStats where
  min_magnitude : ℚ
  max_magnitude : ℚ
  mean_magnitude : ℚ
  turbulence_intensity : ℚ
  deriving DecidableEq

/-- One sample of the raw `vector_field`.  `pixel_x`/`pixel_y` are only
ever printed to the console and are omitted. -/
structure RawVector where
  x : Option ℚ
  y : Option ℚ
  longitude : Option ℚ
  latitude : Option ℚ
  vx : ℚ
  vy : ℚ
  magnitude : ℚ
  deriving DecidableEq

/-- One member of a raw streamline. -/
structure RawPoint where
  x : Option ℚ
  y : Option ℚ
  longitude : Option ℚ
  latitude : Option ℚ
  speed : ℚ
  deriving DecidableEq

/-- One member of a raw particle group. -/
structure RawParticle where
  longitude : Option ℚ
  latitude : Option ℚ
  speed : ℚ
  deriving DecidableEq

/-- The raw simulation result, with optional top-level fields as the
adapters test them.  `metadata` and `performance` are passthrough objects
the core never computes with, so they are omitted. -/
structure RawWind where
  spatial_reference : Option SpatialRef
  magnitude_grid : Option (List (List (Option ℚ)))
  vector_field : Option (List RawVector)
  streamlines : Option (List (List RawPoint))
  particles : Option (List (List RawParticle))
  flow_statistics : Option FlowStats
  deriving DecidableEq

/-- A geographic bounding rectangle, as an `L.LatLngBounds` is consumed
through `getSouth` / `getWest` / `getNorth` / `getEast`. -/
structure Bounds where
  south : ℚ
  west : ℚ
  north : ℚ
  east : ℚ
  deriving DecidableEq

/-- Leaflet `L.latLngBounds(corner1, corner2)` extends an empty bounds by
both corners, so the stored south-west corner takes componentwise minima
and the north-east corner componentwise maxima. -/
def latLngBounds (bw : RawBounds) : Bounds :=
  { south := min bw.south bw.north
    west := min bw.west bw.east
    north := max bw.south bw.north
    east := max bw.west bw.east }

/-- Leaflet `LatLngBounds.contains([lat, lng])`: the point lies between
the south-west and north-east corners, inclusively. -/
def Bounds.containsPt (b : Bounds) (lat lng : ℚ) : Bool :=
  decide (b.south ≤ lat) && decide (lat ≤ b.north) &&
    decide (b.west ≤ lng) && decide (lng ≤ b.east)

-- ==========================================================================
-- Coordinate adapter, src/unnamed/part_000 lines 72-132
-- ==========================================================================

namespace Part000

/-- An adapted vector: the JS spread `{...vector, lat, lng, speed, direction}`
keeps every raw field (the `raw` component) and adds resolved fields.
`direction` (`atan2(vy,vx)·180/π`) is irrational, never read by any other
code, and omitted. -/
structure AdaptedVector where
  raw : RawVector
  lat : Option ℚ
  lng : Option ℚ
  speed : ℚ
  deriving DecidableEq

/-- An adapted streamline point: `{...point, lat, lng}`. -/
structure AdaptedPoint where
  raw : RawPoint
  lat : Option ℚ
  lng : Option ℚ
  deriving DecidableEq

/-- An adapted (flattened) particle: `{...particle, lat, lng}`. -/
structure AdaptedParticle where
  raw : RawParticle
  lat : Option ℚ
  lng : Option ℚ
  deriving DecidableEq

/-- The element mapping of `vectors:` (part_000 lines 104-110):
`lat: vector.latitude, lng: vector.longitude, speed: vector.magnitude`.
An absent `latitude`/`longitude` stays absent (JS `undefined`). -/
def adaptVector (v : RawVector) : AdaptedVector :=
  { raw := v, lat := v.latitude, lng := v.longitude, speed := v.magnitude }

/-- The element mapping of `streamlines:` (part_000 lines 113-119). -/
def adaptPoint (p : RawPoint) : AdaptedPoint :=
  { raw := p, lat := p.latitude, lng := p.longitude }

/-- The element mapping of `particles:` (part_000 lines 122-127). -/
def adaptParticle (p : RawParticle) : AdaptedParticle :=
  { raw := p, lat := p.latitude, lng := p.longitude }

/-- The `AdaptedWindData` structure produced by part_000's
`createWindDataAdapter`. -/
structure Adapted where
  bounds : Bounds
  magnitudeGrid : List (List (Option ℚ))
  vectors : List AdaptedVector
  streamlines : List (List AdaptedPoint)
  particles : List AdaptedParticle
  flowStatistics : Option FlowStats
  deriving DecidableEq

/-- part_000 `createWindDataAdapter` (lines 72-132): returns null for a
null input or when `spatial_reference`/`bounds_wgs84` is absent, otherwise
builds the adapted structure; `magnitude_grid || []` defaults an absent
grid to the empty list, and `flowStatistics` passes `flow_statistics`
through (the `|| {}` default is modelled by keeping the Option). -/
def createWindDataAdapter (raw? : Option RawWind) : Option Adapted :=
  match raw? with
  | none => none
  | some raw =>
    match raw.spatial_reference with
    | none => none
    | some sr =>
      match sr.bounds_wgs84 with
      | none => none
      | some bw =>
        some
          { bounds := latLngBounds bw
            magnitudeGrid := raw.magnitude_grid.getD []
            vectors := (raw.vector_field.getD []).map adaptVector
            streamlines := (raw.streamlines.getD []).map (·.map adaptPoint)
            particles :=
              match raw.particles with
              | some groups =>
                if groups.length > 0 then groups.flatMap (·.map adaptParticle)
                else []
              | none => []
            flowStatistics := raw.flow_statistics }

end Part000

-- ==========================================================================
-- Coordinate adapter, src/app.js lines 51-118
-- ==========================================================================

/-- Result of a JavaScript function that can return null, return a value,
or throw. -/
inductive JsResult (α : Type) where
  | nullv : JsResult α
  | ok : α → JsResult α
  | thrown : JsResult α
  deriving DecidableEq

namespace AppJs

/-- An adapted vector of the app.js variant: `{...vector, lat, lng}`. -/
structure AdaptedVector where
  raw : RawVector
  lat : Option ℚ
  lng : Option ℚ
  deriving DecidableEq

/-- The adapter object built by app.js `createWindDataAdapter`.  The
`bounds` field is the corner array `[[south,west],[north,east]]`, kept
here as the raw record. -/
structure Adapted where
  magnitudeGrid : List (List (Option ℚ))
  gridWidth : ℕ
  gridHeight : ℕ
  bounds : RawBounds
  minMagnitude : ℚ
  maxMagnitude : ℚ
  streamlines : List (List Part000.AdaptedPoint)
  particles : List Part000.AdaptedParticle
  vectorField : List AdaptedVector
  deriving DecidableEq

/-- app.js `createWindDataAdapter` (lines 51-118): returns null for a null
input, when the first vector lacks a `longitude` (the geographic-coords
check), or when `bounds_wgs84` is absent.  Otherwise it evaluates the
object literal, which throws a TypeError on `magnitude_grid[0].length`
when `magnitude_grid` is absent or empty, and on the member accesses of
absent `flow_statistics`, `streamlines` or `particles`. -/
def createWindDataAdapter (raw? : Option RawWind) : JsResult Adapted :=
  match raw? with
  | none => .nullv
  | some raw =>
    let hasGeoCoords :=
      match raw.vector_field with
      | some (v :: _) => v.longitude.isSome
      | _ => false
    if !hasGeoCoords then .nullv
    else
      match raw.spatial_reference.bind (·.bounds_wgs84) with
      | none => .nullv
      | some bw =>
        match raw.magnitude_grid with
        | none => .thrown
        | some grid =>
          match grid with
          | [] => .thrown
          | g0 :: _ =>
            match raw.flow_statistics, raw.streamlines, raw.particles with
            | some fs, some sls, some groups =>
              .ok
                { magnitudeGrid := grid
                  gridWidth := g0.length
                  gridHeight := grid.length
                  bounds := bw
                  minMagnitude := fs.min_magnitude
                  maxMagnitude := fs.max_magnitude
                  streamlines := sls.map (·.map Part000.adaptPoint)
                  particles :=
                    match groups with
                    | [] => []
                    | grp0 :: _ => grp0.map Part000.adaptParticle
                  vectorField :=
                    (raw.vector_field.getD []).map fun v =>
                      { raw := v, lat := v.latitude, lng := v.longitude } }
            | _, _, _ => .thrown

end AppJs

-- ==========================================================================
-- Velocity heatmap, src/unnamed/part_000 lines 185-259
-- ==========================================================================

namespace Part000

/-- A point rendered by `AdvancedVelocityLayer.draw`: its geographic cell
center, fill color and global alpha (the canvas projection
`latLngToContainerPoint` and the pixel size are viewport concerns outside
the embedding). -/
structure RPoint where
  lat : ℚ
  lng : ℚ
  color : String
  alpha : ℚ
  deriving DecidableEq

/-- part_000 `getVelocityColor` (lines 252-259). -/
def getVelocityColor (magnitude : ℚ) : String :=
  if magnitude < 1 then "rgba(0, 255, 255, 0.6)"
  else if magnitude < 2 then "rgba(0, 255, 0, 0.7)"
  else if magnitude < 4 then "rgba(255, 255, 0, 0.8)"
  else if magnitude < 6 then "rgba(255, 165, 0, 0.9)"
  else "rgba(255, 0, 0, 1.0)"

/-- part_000 `AdvancedVelocityLayer.draw` (lines 204-250): an empty grid
or an empty first row renders nothing; otherwise every cell whose
magnitude is neither null nor zero yields one rendered point at the cell
center `lat = north - (row+0.5)·cellHeight`, `lng = west +
(col+0.5)·cellWidth` with `alpha = min(magnitude/5, 0.8)`.  An index past
the end of a short row reads undefined (`none`) and is skipped, exactly
as `magnitude == null` skips it. -/
def heatmapPoints (grid : List (List (Option ℚ))) (b : Bounds) :
    List RPoint :=
  match grid with
  | [] => []
  | g0 :: _ =>
    let h := grid.length
    let w := g0.length
    if w = 0 then []
    else
      let cellWidth := (b.east - b.west) / w
      let cellHeight := (b.north - b.south) / h
      (List.range h).flatMap fun row =>
        (List.range w).filterMap fun col =>
          match (grid.getD row []).getD col none with
          | none => none
          | some magnitude =>
            if magnitude = 0 then none
            else
              some
                { lat := b.north - ((row : ℚ) + 0.5) * cellHeight
                  lng := b.west + ((col : ℚ) + 0.5) * cellWidth
                  color := getVelocityColor magnitude
                  alpha := min (magnitude / 5) 0.8 }

/-- Number of grid cells the draw loop visits whose magnitude is present
and non-zero (the loop visits `grid.length` rows and `grid[0].length`
columns per row). -/
def nonzeroCellCount (grid : List (List (Option ℚ))) : ℕ :=
  match grid with
  | [] => 0
  | g0 :: _ =>
    if g0.length = 0 then 0
    else
      ((List.range grid.length).map fun row =>
        ((List.range g0.length).filter fun col =>
          match (grid.getD row []).getD col none with
          | none => false
          | some magnitude => decide (magnitude ≠ 0)).length).sum

end Part000

-- ==========================================================================
-- Velocity heatmap, src/app.js lines 41-48 and 156-183
-- ==========================================================================

namespace AppJs

/-- app.js `getViridisColor`, the normalization step (line 43):
`t = max(0, min(1, (value - min)/(max - min)))`. -/
def getViridisT (value minM maxM : ℚ) : ℚ :=
  max 0 (min 1 ((value - minM) / (maxM - minM)))

/-- app.js `getViridisColor` (lines 42-48): rounded Viridis polynomial
channels of the normalized value. -/
def getViridisColor (value minM maxM : ℚ) : ℤ × ℤ × ℤ :=
  let t := getViridisT value minM maxM
  (jsRound (255 * (0.267004 + 1.15172 * t - 2.92336 * t ^ 2 + 1.52013 * t ^ 3)),
   jsRound (255 * (0.018623 + 2.75701 * t - 4.49472 * t ^ 2 + 1.77533 * t ^ 3)),
   jsRound (255 * (0.354456 - 2.11226 * t + 10.5126 * t ^ 2 - 12.3881 * t ^ 3 +
     3.63582 * t ^ 4)))

/-- A point rendered by app.js `AdvancedVelocityLayer._draw`: cell center,
normalized intensity and rounded color channels. -/
structure RPoint where
  lat : ℚ
  lng : ℚ
  t : ℚ
  color : ℤ × ℤ × ℤ
  deriving DecidableEq

/-- app.js `AdvancedVelocityLayer._draw` (lines 156-183): iterates
`gridHeight` rows and `gridWidth` columns; a missing row or entry reads
as NaN and is skipped by `isFinite`; every defined cell yields one point
at the cell center with intensity `getViridisT value min max`. -/
def heatmapPoints (grid : List (List (Option ℚ))) (w h : ℕ)
    (minM maxM : ℚ) (b : Bounds) : List RPoint :=
  let cellWidth := (b.east - b.west) / w
  let cellHeight := (b.north - b.south) / h
  (List.range h).flatMap fun j =>
    (List.range w).filterMap fun i =>
      match (grid.getD j []).getD i none with
      | none => none
      | some value =>
        some
          { lat := b.north - ((j : ℚ) + 0.5) * cellHeight
            lng := b.west + ((i : ℚ) + 0.5) * cellWidth
            t := getViridisT value minM maxM
            color := getViridisColor value minM maxM }

/-- Every cell the `_draw` loop visits is defined. -/
def gridFull (grid : List (List (Option ℚ))) (w h : ℕ) : Prop :=
  ∀ j < h, ∀ i < w, ((grid.getD j []).getD i none).isSome = true

instance (grid : List (List (Option ℚ))) (w h : ℕ) :
    Decidable (gridFull grid w h) := by
  unfold gridFull; infer_instance

end AppJs

-- ==========================================================================
-- Animated streamline arrows, src/unnamed/part_000 lines 344-513
-- ==========================================================================

namespace Part000

/-- A pixel-projected streamline point (`latLngToContainerPoint` result). -/
structure Px where
  x : ℚ
  y : ℚ
  deriving DecidableEq

/-- Squared pixel lengths of consecutive segments (lines 411-417 compute
`sqrt(dx²+dy²)` per segment; the squares stay rational). -/
def segLenSqs (points : List Px) : List ℚ :=
  (points.zip points.tail).map fun pq =>
    (pq.2.x - pq.1.x) ^ 2 + (pq.2.y - pq.1.y) ^ 2

/-- `lens` are exactly the (nonnegative real) square roots of the squared
segment lengths of `points`, i.e. the `segmentLengths` array of
`drawAnimatedArrows`. -/
def IsSegLens (points : List Px) (lens : List ℚ) : Prop :=
  List.Forall₂ (fun sq l => 0 ≤ l ∧ l ^ 2 = sq) (segLenSqs points) lens

instance (points : List Px) (lens : List ℚ) :
    Decidable (IsSegLens points lens) := by
  unfold IsSegLens; infer_instance

/-- The per-frame arrow phase (line 422):
`(animationTime * arrowSpeed / 1000) % (arrowSpacing * 2)`. -/
def animationOffset (time speed spacing : ℚ) : ℚ :=
  jsMod (time * speed / 1000) (spacing * 2)

/-- The linear scan of lines 429-441: walk the segment lengths until the
cumulative distance reaches the target; return the segment index and the
interpolation fraction, or `none` when the scan runs off the end (the
`continue` of line 438). -/
def locateSegmentAux (target : ℚ) : List ℚ → ℚ → ℕ → Option (ℕ × ℚ)
  | [], _, _ => none
  | l :: rest, cum, idx =>
    if cum + l < target then locateSegmentAux target rest (cum + l) (idx + 1)
    else some (idx, (target - cum) / l)

/-- Locate the segment containing a target arc-length distance. -/
def locateSegment (segLens : List ℚ) (target : ℚ) : Option (ℕ × ℚ) :=
  locateSegmentAux target segLens 0 0

/-- part_000 `drawAnimatedArrows` (lines 404-460), reduced to the
arc-length distances of the arrows actually drawn: a zero total length
draws nothing; otherwise arrow `i` (for `i <
⌊totalLength/arrowSpacing⌋ + 2`) targets distance
`(i * arrowSpacing + animationOffset) % totalLength` and is drawn iff the
linear scan finds its segment. -/
def drawnArrowDistances (segLens : List ℚ) (time speed spacing : ℚ) :
    List ℚ :=
  let totalLength := segLens.sum
  if totalLength = 0 then []
  else
    let off := animationOffset time speed spacing
    ((List.range (⌊totalLength / spacing⌋ + 2).toNat).map fun (i : ℕ) =>
      jsMod ((i : ℚ) * spacing + off) totalLength).filter fun d =>
        (locateSegment segLens d).isSome

/-- part_000 `drawStreamline` (line 398): the polyline hue
`(streamlineIndex * 137.5) % 360`. -/
def streamlineHue (index : ℕ) : ℚ :=
  jsMod ((index : ℚ) * 137.5) 360

/-- part_000 `drawArrow` (line 464): the arrow hue
`(streamlineIndex * 137.5) % 360`. -/
def arrowHue (index : ℕ) : ℚ :=
  jsMod ((index : ℚ) * 137.5) 360

end Part000

-- ==========================================================================
-- Particle advection engine, src/unnamed/part_000 lines 519-700
-- ==========================================================================

namespace Part000

/-- `this.particleSpeed` (line 532). -/
def particleSpeed : ℚ := 0.8

/-- `this.particleLife` (line 531), used both as lifespan and as the
fresh-particle age multiplier. -/
def particleLife : ℚ := 300

/-- A runtime particle of `AdvancedWindAnimationLayer` (lines 583-590). -/
structure Particle where
  lat : ℚ
  lng : ℚ
  age : ℚ
  maxAge : ℚ
  vx : ℚ
  vy : ℚ
  deriving DecidableEq

/-- One `Math.random()` draw per seeded field, in source order:
latitude, longitude, age.  Each draw lies in `[0, 1)`. -/
structure Rand3 where
  latR : ℚ
  lngR : ℚ
  ageR : ℚ
  deriving DecidableEq

/-- part_000 `createRandomParticle` (lines 579-591). -/
def createRandomParticle (b : Bounds) (r : Rand3) : Particle :=
  { lat := b.south + r.latR * (b.north - b.south)
    lng := b.west + r.lngR * (b.east - b.west)
    age := r.ageR * particleLife
    maxAge := particleLife
    vx := 0
    vy := 0 }

/-- Squared geographic distance from a vector sample to a query point.
The source computes `sqrt((v.lat-lat)² + (v.lng-lng)²)` and only ever
compares distances with `<`; since sqrt is strictly monotone the squared
distances select the same vector, and they stay rational.  A vector with
an undefined `lat`/`lng` gives a NaN distance, and every NaN comparison
is false, so such a vector is never selected: modelled as `none`. -/
def distSq (v : AdaptedVector) (lat lng : ℚ) : Option ℚ :=
  match v.lat, v.lng with
  | some a, some o => some ((a - lat) ^ 2 + (o - lng) ^ 2)
  | _, _ => none

/-- part_000 `getWindVector` (lines 643-660): linear scan keeping the
strictly closest vector; `minDistance` starts at Infinity (modelled by
`none`); ties keep the first-encountered vector. -/
def getWindVector (vectors : List AdaptedVector) (lat lng : ℚ) :
    Option AdaptedVector :=
  (vectors.foldl
    (fun (acc : Option AdaptedVector × Option ℚ) v =>
      match distSq v lat lng, acc.2 with
      | none, _ => acc
      | some d, none => (some v, some d)
      | some d, some m => if d < m then (some v, some d) else acc)
    (none, none)).1

/-- The advection step of `updateParticles` (lines 619-632): adopt the
scaled nearest wind vector when one exists, keep the old velocity
otherwise, integrate the position by `0.0001` of the velocity, and age by
one frame. -/
def advectParticle (vectors : List AdaptedVector) (p : Particle) :
    Particle :=
  let wv := getWindVector vectors p.lat p.lng
  let vx := match wv with
    | some v => v.raw.vx * particleSpeed
    | none => p.vx
  let vy := match wv with
    | some v => v.raw.vy * particleSpeed
    | none => p.vy
  { lat := p.lat + vy * 0.0001
    lng := p.lng + vx * 0.0001
    age := p.age + 1
    maxAge := p.maxAge
    vx := vx
    vy := vy }

/-- One full per-particle tick of `updateParticles` (lines 618-640):
advect, then replace the whole state by a freshly seeded particle when
the particle aged past `maxAge` or left the current viewport bounds
(`Object.assign(particle, this.createRandomParticle(mapBounds))`). -/
def updateParticle (vectors : List AdaptedVector) (b : Bounds) (r : Rand3)
    (p : Particle) : Particle :=
  let q := advectParticle vectors p
  if q.maxAge < q.age ∨ b.containsPt q.lat q.lng = false then
    createRandomParticle b r
  else q

/-- part_000 `updateParticles` (lines 615-641) over the whole pool, with
one random triple per particle. -/
def updateParticles (vectors : List AdaptedVector) (b : Bounds)
    (rs : List Rand3) (ps : List Particle) : List Particle :=
  List.zipWith (updateParticle vectors b) rs ps

end Part000

-- ==========================================================================
-- Concrete fixtures used by witnesses and counterexamples
-- ==========================================================================

/-- A raw vector carrying explicit geographic coordinates. -/
def vGeo : RawVector :=
  { x := none, y := none, longitude := some 22.5, latitude := some 54.5,
    vx := 1, vy := 2, magnitude := 3 }

/-- A raw vector with only local coordinates and no geographic fields. -/
def vNoGeo : RawVector :=
  { x := some 10, y := some 20, longitude := none, latitude := none,
    vx := 1, vy := 2, magnitude := 3 }

/-- A complete raw simulation result. -/
def rawFull : RawWind :=
  { spatial_reference := some ⟨some ⟨54, 22, 55, 23⟩⟩
    magnitude_grid := some [[some 1]]
    vector_field := some [vGeo, vNoGeo]
    streamlines := some []
    particles := some []
    flow_statistics := some ⟨0, 5, 2, 1/10⟩ }

/-- The complete raw result with `magnitude_grid` absent. -/
def rawMissingGrid : RawWind :=
  { rawFull with magnitude_grid := none }

/-- The complete raw result with an empty `magnitude_grid`. -/
def rawEmptyGrid : RawWind :=
  { rawFull with magnitude_grid := some [] }

/-- The complete raw result with `bounds_wgs84` absent. -/
def rawNoBounds : RawWind :=
  { rawFull with spatial_reference := some ⟨none⟩ }

/-- The complete raw result whose only vector lacks geographic fields. -/
def rawNoGeoVectors : RawWind :=
  { rawFull with vector_field := some [vNoGeo] }

/-- The unit-square bounds of the grid scenario. -/
def b01 : Bounds := ⟨0, 0, 1, 1⟩

/-- First row of the scenario grid `[[1,2],[3,4]]`. -/
def gridRow0 : List (Option ℚ) := [some 1, some 2]

/-- Remaining rows of the scenario grid. -/
def gridRest : List (List (Option ℚ)) := [[some 3, some 4]]

/-- The scenario magnitude grid `[[1,2],[3,4]]`. -/
def grid24 : List (List (Option ℚ)) := gridRow0 :: gridRest

/-- The point the part_000 draw renders for cell (0,0) of the scenario. -/
def p24 : Part000.RPoint := ⟨3/4, 1/4, Part000.getVelocityColor 1, 1/5⟩

/-- The point the app.js draw renders for cell (0,0) of the scenario. -/
def q24 : AppJs.RPoint :=
  ⟨3/4, 1/4, AppJs.getViridisT 1 1 4, AppJs.getViridisColor 1 1 4⟩

-- ==========================================================================
-- Helper lemmas
-- ==========================================================================

lemma jsTrunc_of_nonneg {q : ℚ} (h : 0 ≤ q) : jsTrunc q = ⌊q⌋ := by
  simp [jsTrunc, h]

lemma jsMod_nonneg {a b : ℚ} (ha : 0 ≤ a) (hb : 0 < b) : 0 ≤ jsMod a b := by
  have hq : (0 : ℚ) ≤ a / b := div_nonneg ha hb.le
  rw [jsMod, jsTrunc_of_nonneg hq, sub_nonneg]
  calc b * (⌊a / b⌋ : ℚ) ≤ b * (a / b) :=
        mul_le_mul_of_nonneg_left (Int.floor_le _) hb.le
    _ = a := by field_simp

lemma jsMod_lt {a b : ℚ} (ha : 0 ≤ a) (hb : 0 < b) : jsMod a b < b := by
  have hq : (0 : ℚ) ≤ a / b := div_nonneg ha hb.le
  rw [jsMod, jsTrunc_of_nonneg hq, sub_lt_iff_lt_add]
  calc a = b * (a / b) := by field_simp
    _ < b * ((⌊a / b⌋ : ℚ) + 1) :=
        (mul_lt_mul_left hb).mpr (Int.lt_floor_add_one _)
    _ = b + b * (⌊a / b⌋ : ℚ) := by ring

lemma jsMod_add_self {a b : ℚ} (ha : 0 ≤ a) (hb : 0 < b) :
    jsMod (a + b) b = jsMod a b := by
  have hq : (0 : ℚ) ≤ a / b := div_nonneg ha hb.le
  have hq2 : (0 : ℚ) ≤ (a + b) / b := div_nonneg (by linarith) hb.le
  have hdiv : (a + b) / b = a / b + 1 := by field_simp
  rw [jsMod, jsMod, jsTrunc_of_nonneg hq, jsTrunc_of_nonneg hq2, hdiv,
    Int.floor_add_one]
  push_cast
  ring

lemma length_filterMap_isSome {α β : Type} (f : α → Option β) (l : List α) :
    (l.filterMap f).length = (l.filter fun a => (f a).isSome).length := by
  induction l with
  | nil => rfl
  | cons a t ih =>
    cases h : f a <;>
      simp [List.filterMap_cons, List.filter_cons, h, ih]

lemma length_filterMap_of_isSome {α β : Type} {f : α → Option β} {l : List α}
    (h : ∀ a ∈ l, (f a).isSome = true) :
    (l.filterMap f).length = l.length := by
  induction l with
  | nil => rfl
  | cons a t ih =>
    have ha := h a (by simp)
    cases hf : f a with
    | none => rw [hf] at ha; simp at ha
    | some b =>
      simp [List.filterMap_cons, hf, ih fun x hx => h x (by simp [hx])]

lemma exists_of_mem_zipWith {α β γ : Type} {f : α → β → γ} {c : γ} :
    ∀ {as : List α} {bs : List β}, c ∈ List.zipWith f as bs →
      ∃ a b, a ∈ as ∧ b ∈ bs ∧ c = f a b := by
  intro as
  induction as with
  | nil => intro bs h; simp at h
  | cons a t ih =>
    intro bs h
    cases bs with
    | nil => simp at h
    | cons b bt =>
      rw [List.zipWith_cons_cons] at h
      rcases List.mem_cons.mp h with h1 | h2
      · exact ⟨a, b, by simp, by simp, h1⟩
      · obtain ⟨a2, b2, ha, hb, hc⟩ := ih h2
        exact ⟨a2, b2, by simp [ha], by simp [hb], hc⟩

lemma mem_of_getD_eq_some {l : List (Option ℚ)} {i : ℕ} {m : ℚ}
    (h : l.getD i none = some m) : some m ∈ l := by
  by_cases hi : i < l.length
  · rw [List.getD_eq_getElem _ _ hi] at h
    exact h ▸ List.getElem_mem hi
  · rw [List.getD_eq_default _ _ (by omega)] at h
    cases h

-- ==========================================================================
-- Claim theorems
-- ==========================================================================

/-- C9 counterexample: at streamline index 1 the code colors the polyline
and its arrows with hue `(1 * 137.5) mod 360 = 137.5`, not the claimed
golden angle `(1 * 137.507861) mod 360 = 137.507861`. -/
theorem c9_hue_is_137_5_not_golden_angle :
    Part000.streamlineHue 1 = 137.5 ∧
    Part000.arrowHue 1 = 137.5 ∧
    jsMod ((1 : ℚ) * 137.507861) 360 = 137.507861 ∧
    (137.5 : ℚ) ≠ 137.507861 := by
  refine ⟨?_, ?_, ?_, by norm_num⟩ <;>
    norm_num [Part000.streamlineHue, Part000.arrowHue, jsMod, jsTrunc]

/-- C9 (amended): for every streamline index the polyline hue and the
arrow hue agree and equal `(index * 137.5) mod 360` — the source's
constant is 137.5, not 137.507861 — and the hue lies in `[0, 360)`. -/
theorem c9_hue_golden_step (i : ℕ) :
    Part000.arrowHue i = Part000.streamlineHue i ∧
    Part000.streamlineHue i = jsMod ((i : ℚ) * 137.5) 360 ∧
    0 ≤ Part000.streamlineHue i ∧ Part000.streamlineHue i < 360 := by
  refine ⟨rfl, rfl, ?_, ?_⟩
  · exact jsMod_nonneg (by positivity) (by norm_num)
  · exact jsMod_lt (by positivity) (by norm_num)

/-- C7 counterexample: for the streamline with one 100-px segment,
`arrowSpacing = 30` and `speed = 50 px/s`, an arrow sits at arc distance
20 at `t = 0` but no arrow does at `t = totalLength/speed*1000 = 2000 ms`,
so the arrow positions after one claimed "full traversal period" differ
from those at `t = 0`. -/
theorem c7_not_periodic_in_total_length :
    (20 : ℚ) ∈ Part000.drawnArrowDistances [100] 0 50 30 ∧
    (20 : ℚ) ∉ Part000.drawnArrowDistances [100] (100 / 50 * 1000) 50 30 := by
  have ht : ((5 : ℤ)).toNat = 5 := rfl
  have e0 : Part000.drawnArrowDistances [100] 0 50 30 =
      [0, 30, 60, 90, 20] := by
    simp only [Part000.drawnArrowDistances, Part000.animationOffset,
      Part000.locateSegment, List.sum_cons, List.sum_nil]
    norm_num [ht, List.range_succ, List.flatMap_cons, List.flatMap_nil,
      jsMod, jsTrunc, Part000.locateSegmentAux]
  have e1 : Part000.drawnArrowDistances [100] (100 / 50 * 1000) 50 30 =
      [40, 70, 0, 30, 60] := by
    simp only [Part000.drawnArrowDistances, Part000.animationOffset,
      Part000.locateSegment, List.sum_cons, List.sum_nil]
    norm_num [ht, List.range_succ, List.flatMap_cons, List.flatMap_nil,
      jsMod, jsTrunc, Part000.locateSegmentAux]
  rw [e0, e1]
  norm_num

/-- C7 (amended): the drawn arrow distances are periodic in time with
period `2·arrowSpacing/speed·1000` milliseconds (the period of the
animation offset `(t·speed/1000) mod (2·spacing)`), not
`totalLength/speed·1000`. -/
theorem c7_arrow_period_two_spacings (segLens : List ℚ) (t speed spacing : ℚ)
    (ht : 0 ≤ t) (hsp : 0 < speed) (hspc : 0 < spacing) :
    Part000.drawnArrowDistances segLens (t + 2 * spacing / speed * 1000)
        speed spacing =
      Part000.drawnArrowDistances segLens t speed spacing := by
  have hoff : Part000.animationOffset (t + 2 * spacing / speed * 1000)
      speed spacing = Part000.animationOffset t speed spacing := by
    unfold Part000.animationOffset
    have harg : (t + 2 * spacing / speed * 1000) * speed / 1000
        = t * speed / 1000 + spacing * 2 := by
      field_simp
      ring
    rw [harg]
    exact jsMod_add_self (by positivity) (by positivity)
  simp only [Part000.drawnArrowDistances, hoff]

/-- C7 witness: the amended period at the concrete scenario — the arrow
distances at `t = 0 + 2·30/50·1000 = 1200 ms` equal those at `t = 0`. -/
theorem c7_arrow_period_witness :
    Part000.drawnArrowDistances [100] (0 + 2 * 30 / 50 * 1000) 50 30 =
      Part000.drawnArrowDistances [100] 0 50 30 :=
  c7_arrow_period_two_spacings [100] 0 50 30 (by norm_num) (by norm_num)
    (by norm_num)

/-- C6 counterexample: for a single streamline of two points 100 px apart
with `arrowSpacing = 30` and `speed = 50 px/s`, at `t = 0` the code also
draws an arrow at arc distance 20 (arrow index 4 wraps: `(4·30) mod 100`),
so the set of distances is not exactly `{0, 30, 60, 90}`. -/
theorem c6_extra_wrapped_arrow :
    Part000.IsSegLens [⟨0, 0⟩, ⟨100, 0⟩] [100] ∧
    (20 : ℚ) ∈ Part000.drawnArrowDistances [100] 0 50 30 ∧
    (20 : ℚ) ∉ ([0, 30, 60, 90] : List ℚ) := by
  have ht : ((5 : ℤ)).toNat = 5 := rfl
  have e0 : Part000.drawnArrowDistances [100] 0 50 30 =
      [0, 30, 60, 90, 20] := by
    simp only [Part000.drawnArrowDistances, Part000.animationOffset,
      Part000.locateSegment, List.sum_cons, List.sum_nil]
    norm_num [ht, List.range_succ, List.flatMap_cons, List.flatMap_nil,
      jsMod, jsTrunc, Part000.locateSegmentAux]
  refine ⟨?_, ?_, by norm_num⟩
  · simp only [Part000.IsSegLens, Part000.segLenSqs]
    norm_num [List.forall₂_cons]
  · rw [e0]; norm_num

/-- C6 (amended): every drawn arrow of a streamline with segment lengths
`segLens` sits at arc distance `(i·spacing + timeOffset) mod totalLength`
for some arrow index `i < ⌊totalLength/spacing⌋ + 2`, with `timeOffset =
(t·speed/1000) mod (2·spacing)`; in the concrete scenario (one 100-px
segment, spacing 30, speed 50, `t = 0`) the drawn distances are
`[0, 30, 60, 90, 20]` — the claimed `{0, 30, 60, 90}` plus the wrapped
arrow at 20. -/
theorem c6_arrow_placement :
    (∀ (segLens : List ℚ) (t speed spacing d : ℚ),
      d ∈ Part000.drawnArrowDistances segLens t speed spacing →
      ∃ i : ℕ, i < (⌊segLens.sum / spacing⌋ + 2).toNat ∧
        d = jsMod ((i : ℚ) * spacing +
          Part000.animationOffset t speed spacing) segLens.sum) ∧
    Part000.drawnArrowDistances [100] 0 50 30 = [0, 30, 60, 90, 20] := by
  constructor
  · intro segLens t speed spacing d hd
    simp only [Part000.drawnArrowDistances] at hd
    by_cases h0 : segLens.sum = 0
    · rw [if_pos h0] at hd; simp at hd
    · rw [if_neg h0] at hd
      obtain ⟨hmem, -⟩ := List.mem_filter.mp hd
      obtain ⟨i, hi, hie⟩ := List.mem_map.mp hmem
      exact ⟨i, List.mem_range.mp hi, hie.symm⟩
  · have ht : ((5 : ℤ)).toNat = 5 := rfl
    simp only [Part000.drawnArrowDistances, Part000.animationOffset,
      Part000.locateSegment, List.sum_cons, List.sum_nil]
    norm_num [ht, List.range_succ, List.flatMap_cons, List.flatMap_nil,
      jsMod, jsTrunc, Part000.locateSegmentAux]

/-- C6 witness: the wrapped arrow at distance 20 of the scenario indeed
has the placement form guaranteed by the general statement. -/
theorem c6_arrow_placement_witness :
    ∃ i : ℕ, i < (⌊([100] : List ℚ).sum / 30⌋ + 2).toNat ∧
      (20 : ℚ) = jsMod ((i : ℚ) * 30 + Part000.animationOffset 0 50 30)
        ([100] : List ℚ).sum := by
  apply c6_arrow_placement.1 [100] 0 50 30 20
  rw [c6_arrow_placement.2]
  norm_num

/-- C3 (confirmed): when the advected particle has aged past `maxAge` or
left the viewport bounds, the tick replaces its entire state with the
freshly seeded particle, whose age `ageR·particleLife` is strictly below
its `maxAge = particleLife`; and in every case the post-tick age never
exceeds the post-tick `maxAge`. -/
theorem c3_respawn_replaces_full_state (vectors : List Part000.AdaptedVector)
    (b : Bounds) (r : Part000.Rand3) (p : Part000.Particle)
    (h0 : 0 ≤ r.ageR) (h1 : r.ageR < 1) :
    (((Part000.advectParticle vectors p).maxAge <
        (Part000.advectParticle vectors p).age ∨
      b.containsPt (Part000.advectParticle vectors p).lat
        (Part000.advectParticle vectors p).lng = false) →
      Part000.updateParticle vectors b r p =
        Part000.createRandomParticle b r ∧
      (Part000.updateParticle vectors b r p).age <
        (Part000.updateParticle vectors b r p).maxAge) ∧
    (Part000.updateParticle vectors b r p).age ≤
      (Part000.updateParticle vectors b r p).maxAge := by
  simp only [Part000.updateParticle]
  by_cases hc : (Part000.advectParticle vectors p).maxAge <
      (Part000.advectParticle vectors p).age ∨
    b.containsPt (Part000.advectParticle vectors p).lat
      (Part000.advectParticle vectors p).lng = false
  · rw [if_pos hc]
    have hlt : (Part000.createRandomParticle b r).age <
        (Part000.createRandomParticle b r).maxAge := by
      simp only [Part000.createRandomParticle, Part000.particleLife]
      nlinarith
    exact ⟨fun _ => ⟨rfl, hlt⟩, hlt.le⟩
  · rw [if_neg hc]
    rcases not_or.mp hc with ⟨hna, hnb⟩
    exact ⟨fun h => absurd h hc, le_of_not_lt hna⟩

/-- C3 witness: a particle of age 400 > maxAge 300 is replaced on the
tick by the fresh seed, whose age 150 is strictly below 300. -/
theorem c3_respawn_witness :
    Part000.updateParticle [] ⟨0, 0, 1, 1⟩ ⟨1/2, 1/2, 1/2⟩
        ⟨1/2, 1/2, 400, 300, 0, 0⟩ =
      Part000.createRandomParticle ⟨0, 0, 1, 1⟩ ⟨1/2, 1/2, 1/2⟩ ∧
    (Part000.updateParticle [] ⟨0, 0, 1, 1⟩ ⟨1/2, 1/2, 1/2⟩
        ⟨1/2, 1/2, 400, 300, 0, 0⟩).age <
      (Part000.updateParticle [] ⟨0, 0, 1, 1⟩ ⟨1/2, 1/2, 1/2⟩
        ⟨1/2, 1/2, 400, 300, 0, 0⟩).maxAge :=
  (c3_respawn_replaces_full_state [] ⟨0, 0, 1, 1⟩ ⟨1/2, 1/2, 1/2⟩
      ⟨1/2, 1/2, 400, 300, 0, 0⟩ (by norm_num) (by norm_num)).1
    (Or.inl (by
      simp only [Part000.advectParticle, Part000.getWindVector,
        List.foldl_nil]
      norm_num))

/-- C4 (confirmed): on an empty vector field the nearest-vector lookup
returns no vector, and one tick leaves a zero-velocity particle with zero
velocity (a respawned particle is also seeded with zero velocity). -/
theorem c4_empty_field_keeps_zero_velocity :
    (∀ lat lng : ℚ, Part000.getWindVector [] lat lng = none) ∧
    ∀ (b : Bounds) (r : Part000.Rand3) (p : Part000.Particle),
      p.vx = 0 → p.vy = 0 →
      (Part000.updateParticle [] b r p).vx = 0 ∧
      (Part000.updateParticle [] b r p).vy = 0 := by
  refine ⟨fun lat lng => rfl, ?_⟩
  intro b r p hx hy
  have hadv : (Part000.advectParticle [] p).vx = 0 ∧
      (Part000.advectParticle [] p).vy = 0 := by
    simp [Part000.advectParticle, Part000.getWindVector, hx, hy]
  simp only [Part000.updateParticle]
  by_cases hc : (Part000.advectParticle [] p).maxAge <
      (Part000.advectParticle [] p).age ∨
    b.containsPt (Part000.advectParticle [] p).lat
      (Part000.advectParticle [] p).lng = false
  · rw [if_pos hc]
    exact ⟨rfl, rfl⟩
  · rw [if_neg hc]
    exact hadv

/-- C4 witness: the lookup misses and a concrete zero-velocity particle
keeps zero velocity across the tick. -/
theorem c4_empty_field_witness :
    Part000.getWindVector [] (1/2) (1/2) = none ∧
    (Part000.updateParticle [] ⟨0, 0, 1, 1⟩ ⟨1/2, 1/2, 1/2⟩
        ⟨1/2, 1/2, 10, 300, 0, 0⟩).vx = 0 ∧
    (Part000.updateParticle [] ⟨0, 0, 1, 1⟩ ⟨1/2, 1/2, 1/2⟩
        ⟨1/2, 1/2, 10, 300, 0, 0⟩).vy = 0 :=
  ⟨c4_empty_field_keeps_zero_velocity.1 (1/2) (1/2),
    c4_empty_field_keeps_zero_velocity.2 ⟨0, 0, 1, 1⟩ ⟨1/2, 1/2, 1/2⟩
      ⟨1/2, 1/2, 10, 300, 0, 0⟩ rfl rfl⟩

lemma createRandomParticle_in_bounds (b : Bounds) (r : Part000.Rand3)
    (hb1 : b.south ≤ b.north) (hb2 : b.west ≤ b.east)
    (h1 : 0 ≤ r.latR) (h2 : r.latR < 1) (h3 : 0 ≤ r.lngR) (h4 : r.lngR < 1) :
    b.containsPt (Part000.createRandomParticle b r).lat
      (Part000.createRandomParticle b r).lng = true := by
  simp only [Part000.createRandomParticle, Bounds.containsPt,
    Bool.and_eq_true, decide_eq_true_eq]
  refine ⟨⟨⟨?_, ?_⟩, ?_⟩, ?_⟩
  · nlinarith
  · nlinarith
  · nlinarith
  · nlinarith

lemma updateParticle_invariant (vectors : List Part000.AdaptedVector)
    (b : Bounds) (r : Part000.Rand3) (p : Part000.Particle)
    (hb1 : b.south ≤ b.north) (hb2 : b.west ≤ b.east)
    (hr : 0 ≤ r.latR ∧ r.latR < 1 ∧ 0 ≤ r.lngR ∧ r.lngR < 1 ∧
      0 ≤ r.ageR ∧ r.ageR < 1)
    (hage : 0 ≤ p.age) :
    0 ≤ (Part000.updateParticle vectors b r p).age ∧
    (Part000.updateParticle vectors b r p).age ≤
      (Part000.updateParticle vectors b r p).maxAge ∧
    b.containsPt (Part000.updateParticle vectors b r p).lat
      (Part000.updateParticle vectors b r p).lng = true := by
  obtain ⟨h1, h2, h3, h4, h5, h6⟩ := hr
  simp only [Part000.updateParticle]
  by_cases hc : (Part000.advectParticle vectors p).maxAge <
      (Part000.advectParticle vectors p).age ∨
    b.containsPt (Part000.advectParticle vectors p).lat
      (Part000.advectParticle vectors p).lng = false
  · rw [if_pos hc]
    refine ⟨?_, ?_, createRandomParticle_in_bounds b r hb1 hb2 h1 h2 h3 h4⟩
    · simp only [Part000.createRandomParticle, Part000.particleLife]
      nlinarith
    · simp only [Part000.createRandomParticle, Part000.particleLife]
      nlinarith
  · rw [if_neg hc]
    rcases not_or.mp hc with ⟨hna, hnb⟩
    refine ⟨?_, le_of_not_lt hna, Bool.ne_false_iff.mp hnb⟩
    have hstep : (Part000.advectParticle vectors p).age = p.age + 1 := rfl
    rw [hstep]
    linarith

/-- C10 (confirmed): after a tick of `updateParticles` every particle in
the pool has `0 ≤ age ≤ maxAge` and sits inside the viewport bounds used
by that tick, provided the bounds are a rectangle, the prior ages are
nonnegative and the random draws lie in `[0, 1)`; and every freshly
seeded particle starts with `vx = vy = 0` at a position inside those
bounds. -/
theorem c10_post_tick_invariant :
    (∀ (vectors : List Part000.AdaptedVector) (b : Bounds)
      (rs : List Part000.Rand3) (ps : List Part000.Particle)
      (p : Part000.Particle),
      b.south ≤ b.north → b.west ≤ b.east →
      (∀ r ∈ rs, 0 ≤ r.latR ∧ r.latR < 1 ∧ 0 ≤ r.lngR ∧ r.lngR < 1 ∧
        0 ≤ r.ageR ∧ r.ageR < 1) →
      (∀ q ∈ ps, 0 ≤ q.age) →
      p ∈ Part000.updateParticles vectors b rs ps →
      0 ≤ p.age ∧ p.age ≤ p.maxAge ∧ b.containsPt p.lat p.lng = true) ∧
    (∀ (b : Bounds) (r : Part000.Rand3),
      b.south ≤ b.north → b.west ≤ b.east →
      0 ≤ r.latR → r.latR < 1 → 0 ≤ r.lngR → r.lngR < 1 →
      (Part000.createRandomParticle b r).vx = 0 ∧
      (Part000.createRandomParticle b r).vy = 0 ∧
      b.containsPt (Part000.createRandomParticle b r).lat
        (Part000.createRandomParticle b r).lng = true) := by
  constructor
  · intro vectors b rs ps p hb1 hb2 hrs hps hmem
    obtain ⟨r, q, hr, hq, rfl⟩ := exists_of_mem_zipWith hmem
    exact updateParticle_invariant vectors b r q hb1 hb2 (hrs r hr) (hps q hq)
  · intro b r hb1 hb2 h1 h2 h3 h4
    exact ⟨rfl, rfl, createRandomParticle_in_bounds b r hb1 hb2 h1 h2 h3 h4⟩

/-- C10 witness: the invariant holds for a concrete one-particle pool
after one tick, and a concrete fresh seed has zero velocity inside the
bounds. -/
theorem c10_post_tick_invariant_witness :
    (0 ≤ (Part000.updateParticle [] ⟨0, 0, 1, 1⟩ ⟨1/2, 1/2, 1/2⟩
        ⟨1/2, 1/2, 10, 300, 0, 0⟩).age ∧
      (Part000.updateParticle [] ⟨0, 0, 1, 1⟩ ⟨1/2, 1/2, 1/2⟩
        ⟨1/2, 1/2, 10, 300, 0, 0⟩).age ≤
        (Part000.updateParticle [] ⟨0, 0, 1, 1⟩ ⟨1/2, 1/2, 1/2⟩
          ⟨1/2, 1/2, 10, 300, 0, 0⟩).maxAge ∧
      Bounds.containsPt ⟨0, 0, 1, 1⟩
        (Part000.updateParticle [] ⟨0, 0, 1, 1⟩ ⟨1/2, 1/2, 1/2⟩
          ⟨1/2, 1/2, 10, 300, 0, 0⟩).lat
        (Part000.updateParticle [] ⟨0, 0, 1, 1⟩ ⟨1/2, 1/2, 1/2⟩
          ⟨1/2, 1/2, 10, 300, 0, 0⟩).lng = true) ∧
    ((Part000.createRandomParticle ⟨0, 0, 1, 1⟩ ⟨1/2, 1/2, 1/2⟩).vx = 0 ∧
      (Part000.createRandomParticle ⟨0, 0, 1, 1⟩ ⟨1/2, 1/2, 1/2⟩).vy = 0 ∧
      Bounds.containsPt ⟨0, 0, 1, 1⟩
        (Part000.createRandomParticle ⟨0, 0, 1, 1⟩ ⟨1/2, 1/2, 1/2⟩).lat
        (Part000.createRandomParticle ⟨0, 0, 1, 1⟩ ⟨1/2, 1/2, 1/2⟩).lng =
        true) :=
  ⟨c10_post_tick_invariant.1 [] ⟨0, 0, 1, 1⟩ [⟨1/2, 1/2, 1/2⟩]
      [⟨1/2, 1/2, 10, 300, 0, 0⟩] _ (by norm_num) (by norm_num)
      (by intro x hx; rw [List.mem_singleton] at hx; subst hx; norm_num)
      (by intro x hx; rw [List.mem_singleton] at hx; subst hx; norm_num)
      (by simp [Part000.updateParticles]),
    c10_post_tick_invariant.2 ⟨0, 0, 1, 1⟩ ⟨1/2, 1/2, 1/2⟩ (by norm_num)
      (by norm_num) (by norm_num) (by norm_num) (by norm_num) (by norm_num)⟩

/-- C5 counterexample: a raw vector without `latitude`/`longitude` is
adapted, both at element level and through the whole adapter, with
undefined `lat`/`lng` — no linear fallback transform is applied, so the
adapted point does get silent undefined coordinates. -/
theorem c5_no_fallback_applied :
    (Part000.adaptVector vNoGeo).lat = none ∧
    (Part000.adaptVector vNoGeo).lng = none ∧
    (Part000.createWindDataAdapter (some rawNoGeoVectors)).map
      (fun a => a.vectors.map (·.lat)) = some [none] := by
  exact ⟨rfl, rfl, rfl⟩

/-- C5 (amended): the part_000 adapter copies the explicit geographic
fields verbatim into every adapted vector, streamline point and particle
— including copying absence: a missing `latitude`/`longitude` yields an
undefined `lat`/`lng`, with no fallback transform. -/
theorem c5_adapter_copies_coords_verbatim :
    ∀ (raw : RawWind) (a : Part000.Adapted),
      Part000.createWindDataAdapter (some raw) = some a →
      (∀ v ∈ a.vectors, v.lat = v.raw.latitude ∧ v.lng = v.raw.longitude ∧
        v.speed = v.raw.magnitude) ∧
      (∀ sl ∈ a.streamlines, ∀ pt ∈ sl,
        pt.lat = pt.raw.latitude ∧ pt.lng = pt.raw.longitude) ∧
      (∀ pc ∈ a.particles,
        pc.lat = pc.raw.latitude ∧ pc.lng = pc.raw.longitude) := by
  intro raw a h
  rcases raw with ⟨sr?, mg, vf, sls, pgs, fs⟩
  rcases sr? with _ | ⟨bw?⟩
  · cases h
  rcases bw? with _ | bw
  · cases h
  injection h with h
  subst h
  refine ⟨?_, ?_, ?_⟩
  · intro v hv
    obtain ⟨u, -, rfl⟩ := List.mem_map.mp hv
    exact ⟨rfl, rfl, rfl⟩
  · intro sl hsl pt hpt
    obtain ⟨u, -, rfl⟩ := List.mem_map.mp hsl
    obtain ⟨w, -, rfl⟩ := List.mem_map.mp hpt
    exact ⟨rfl, rfl⟩
  · intro pc hpc
    dsimp only at hpc
    rcases pgs with _ | groups
    · simp at hpc
    · dsimp only at hpc
      by_cases hg : groups.length > 0
      · rw [if_pos hg] at hpc
        obtain ⟨grp, -, hpc2⟩ := List.mem_flatMap.mp hpc
        obtain ⟨w, -, rfl⟩ := List.mem_map.mp hpc2
        exact ⟨rfl, rfl⟩
      · rw [if_neg hg] at hpc
        simp at hpc

/-- C5 witness: the verbatim-copy property instantiated on the concrete
raw data whose only vector has no geographic fields, at that vector. -/
theorem c5_adapter_copies_coords_witness :
    (Part000.adaptVector vNoGeo).lat = (Part000.adaptVector vNoGeo).raw.latitude ∧
    (Part000.adaptVector vNoGeo).lng = (Part000.adaptVector vNoGeo).raw.longitude ∧
    (Part000.adaptVector vNoGeo).speed = (Part000.adaptVector vNoGeo).raw.magnitude :=
  (c5_adapter_copies_coords_verbatim rawNoGeoVectors
    ((Part000.createWindDataAdapter (some rawNoGeoVectors)).getD
      ⟨⟨0, 0, 0, 0⟩, [], [], [], [], none⟩) rfl).1
    (Part000.adaptVector vNoGeo) (List.mem_singleton.mpr rfl)

/-- C8 counterexample: with valid bounds present, an absent
`magnitude_grid` is not refused — the part_000 adapter still produces
adapted data (with the grid defaulted to `[]`), and the app.js adapter
throws a TypeError on `magnitude_grid[0].length` for an absent and for an
empty grid instead of returning null. -/
theorem c8_missing_grid_not_refused :
    (Part000.createWindDataAdapter (some rawMissingGrid)).map
      (·.magnitudeGrid) = some [] ∧
    AppJs.createWindDataAdapter (some rawEmptyGrid) = JsResult.thrown ∧
    AppJs.createWindDataAdapter (some rawMissingGrid) = JsResult.thrown := by
  exact ⟨rfl, rfl, rfl⟩

/-- C8 (amended): both adapters return null, without throwing, whenever
`spatial_reference.bounds_wgs84` cannot be resolved; but an empty or
missing `magnitude_grid` is not refused — the part_000 adapter defaults
the grid to `[]` and still produces the structure, while the app.js
adapter throws on the grid access. -/
theorem c8_adapter_refuses_missing_bounds :
    (∀ raw : RawWind, raw.spatial_reference.bind (·.bounds_wgs84) = none →
      Part000.createWindDataAdapter (some raw) = none ∧
      AppJs.createWindDataAdapter (some raw) = JsResult.nullv) ∧
    (Part000.createWindDataAdapter (some rawMissingGrid)).isSome = true := by
  constructor
  · intro raw h
    constructor
    · rcases raw with ⟨sr?, mg, vf, sls, pgs, fs⟩
      rcases sr? with _ | ⟨bw?⟩
      · rfl
      · rcases bw? with _ | bw
        · rfl
        · simp at h
    · simp only [AppJs.createWindDataAdapter]
      split
      · rfl
      · rw [h]
  · rfl

/-- C8 witness: both adapters return null on the concrete raw data whose
`bounds_wgs84` field is absent. -/
theorem c8_adapter_refuses_missing_bounds_witness :
    Part000.createWindDataAdapter (some rawNoBounds) = none ∧
    AppJs.createWindDataAdapter (some rawNoBounds) = JsResult.nullv :=
  c8_adapter_refuses_missing_bounds.1 rawNoBounds rfl

/-- C2 (confirmed): the heatmap builders map cell `(row, col)` of an H×W
grid to the center `lat = north - (row+0.5)·cellHeight`, `lng = west +
(col+0.5)·cellWidth` with `cellHeight = (north-south)/H` and `cellWidth =
(east-west)/W` (row 0 northernmost): every present non-zero cell yields
exactly that rendered point, and the `[[1,2],[3,4]]` scenario on the unit
square yields the four centers in row-major order in both variants. -/
theorem c2_cell_center_mapping :
    (∀ (b : Bounds) (g0 : List (Option ℚ)) (rest : List (List (Option ℚ)))
      (row col : ℕ) (m : ℚ),
      row < (g0 :: rest).length → col < g0.length →
      ((g0 :: rest).getD row []).getD col none = some m → m ≠ 0 →
      ({ lat := b.north - ((row : ℚ) + 0.5) *
            ((b.north - b.south) / ((g0 :: rest).length : ℚ)),
         lng := b.west + ((col : ℚ) + 0.5) *
            ((b.east - b.west) / (g0.length : ℚ)),
         color := Part000.getVelocityColor m,
         alpha := min (m / 5) 0.8 } : Part000.RPoint) ∈
        Part000.heatmapPoints (g0 :: rest) b) ∧
    (Part000.heatmapPoints [[some 1, some 2], [some 3, some 4]]
        ⟨0, 0, 1, 1⟩).map (fun p => (p.lat, p.lng)) =
      [(0.75, 0.25), (0.75, 0.75), (0.25, 0.25), (0.25, 0.75)] ∧
    (AppJs.heatmapPoints [[some 1, some 2], [some 3, some 4]] 2 2 1 4
        ⟨0, 0, 1, 1⟩).map (fun p => (p.lat, p.lng)) =
      [(0.75, 0.25), (0.75, 0.75), (0.25, 0.25), (0.25, 0.75)] := by
  refine ⟨?_, ?_, ?_⟩
  · intro b g0 rest row col m hrow hcol hlook hm
    simp only [Part000.heatmapPoints]
    rw [if_neg (by omega : ¬ g0.length = 0)]
    apply List.mem_flatMap.mpr
    refine ⟨row, List.mem_range.mpr hrow, ?_⟩
    apply List.mem_filterMap.mpr
    refine ⟨col, List.mem_range.mpr hcol, ?_⟩
    rw [hlook]
    dsimp only
    rw [if_neg hm]
  · simp only [Part000.heatmapPoints]
    norm_num [List.range_succ, List.flatMap_cons, List.flatMap_nil,
      List.filterMap_cons, List.getD_cons_zero, List.getD_cons_succ]
  · simp only [AppJs.heatmapPoints]
    norm_num [List.range_succ, List.flatMap_cons, List.flatMap_nil,
      List.filterMap_cons, List.getD_cons_zero, List.getD_cons_succ]

/-- C2 witness: the cell-center mapping instantiated at cell (0,0) of the
scenario grid on the unit square. -/
theorem c2_cell_center_mapping_witness :
    ({ lat := b01.north - (((0 : ℕ) : ℚ) + 0.5) *
          ((b01.north - b01.south) / ((gridRow0 :: gridRest).length : ℚ)),
       lng := b01.west + (((0 : ℕ) : ℚ) + 0.5) *
          ((b01.east - b01.west) / (gridRow0.length : ℚ)),
       color := Part000.getVelocityColor 1,
       alpha := min ((1 : ℚ) / 5) 0.8 } : Part000.RPoint) ∈
      Part000.heatmapPoints (gridRow0 :: gridRest) b01 :=
  c2_cell_center_mapping.1 b01 gridRow0 gridRest 0 0 1 (Nat.succ_pos _)
    (by norm_num [gridRow0]) rfl (by norm_num)

/-- C1 counterexample: the valid 1×1 grid `[[0]]` on the unit square
renders zero points — the part_000 draw skips cells whose magnitude is 0,
so it does not produce exactly H×W points. -/
theorem c1_zero_magnitude_cell_skipped :
    (Part000.heatmapPoints [[some 0]] ⟨0, 0, 1, 1⟩).length ≠ 1 * 1 := by
  simp only [Part000.heatmapPoints]
  norm_num [List.range_succ, List.flatMap_cons, List.flatMap_nil,
    List.filterMap_cons, List.getD_cons_zero, List.getD_cons_succ]

/-- C1 (amended): the part_000 draw renders exactly one point per grid
cell whose magnitude is present and non-zero (so fewer than H×W when
null/zero cells exist), with opacity `min(magnitude/5, 0.8) ∈ [0,1]` for
nonnegative magnitudes; the app.js draw renders one point per defined
cell — exactly `H·W` for a fully populated grid — with normalized
intensity `clamp((value-min)/(max-min), 0, 1) ∈ [0,1]`.  Neither computes
`clamp(magnitude/maxMagnitude, 0, 1)`. -/
theorem c1_heatmap_count_and_intensity :
    (∀ (grid : List (List (Option ℚ))) (b : Bounds),
      (Part000.heatmapPoints grid b).length = Part000.nonzeroCellCount grid) ∧
    (∀ (grid : List (List (Option ℚ))) (b : Bounds) (p : Part000.RPoint),
      (∀ row ∈ grid, ∀ c ∈ row, 0 ≤ c.getD 0) →
      p ∈ Part000.heatmapPoints grid b → 0 ≤ p.alpha ∧ p.alpha ≤ 1) ∧
    (∀ (grid : List (List (Option ℚ))) (w h : ℕ) (minM maxM : ℚ)
      (b : Bounds), AppJs.gridFull grid w h →
      (AppJs.heatmapPoints grid w h minM maxM b).length = h * w) ∧
    (∀ (grid : List (List (Option ℚ))) (w h : ℕ) (minM maxM : ℚ)
      (b : Bounds) (p : AppJs.RPoint),
      p ∈ AppJs.heatmapPoints grid w h minM maxM b →
      0 ≤ p.t ∧ p.t ≤ 1) := by
  refine ⟨?_, ?_, ?_, ?_⟩
  · intro grid b
    cases grid with
    | nil => rfl
    | cons g0 rest =>
      simp only [Part000.heatmapPoints, Part000.nonzeroCellCount]
      by_cases hw : g0.length = 0
      · rw [if_pos hw, if_pos hw]
        rfl
      · rw [if_neg hw, if_neg hw, List.length_flatMap]
        congr 1
        apply List.map_congr_left
        intro row hrow
        rw [Function.comp_apply, length_filterMap_isSome]
        congr 1
        apply List.filter_congr
        intro col hcol
        cases hl : ((g0 :: rest).getD row []).getD col none with
        | none => simp [hl]
        | some m =>
          by_cases hm : m = 0
          · simp [hl, hm]
          · simp [hl, hm]
  · intro grid b p hnn hp
    cases grid with
    | nil => simp [Part000.heatmapPoints] at hp
    | cons g0 rest =>
      simp only [Part000.heatmapPoints] at hp
      by_cases hw : g0.length = 0
      · rw [if_pos hw] at hp
        simp at hp
      · rw [if_neg hw] at hp
        obtain ⟨row, hrow, hp2⟩ := List.mem_flatMap.mp hp
        obtain ⟨col, hcol, hp3⟩ := List.mem_filterMap.mp hp2
        cases hl : ((g0 :: rest).getD row []).getD col none with
        | none => rw [hl] at hp3; simp at hp3
        | some m =>
          rw [hl] at hp3
          dsimp only at hp3
          by_cases hm : m = 0
          · rw [if_pos hm] at hp3
            cases hp3
          · rw [if_neg hm] at hp3
            injection hp3 with hp3
            subst hp3
            have hm0 : 0 ≤ m := by
              have hrowmem : (g0 :: rest).getD row [] ∈ g0 :: rest := by
                rw [List.getD_eq_getElem _ _ (List.mem_range.mp hrow)]
                exact List.getElem_mem _
              have hcm : some m ∈ (g0 :: rest).getD row [] :=
                mem_of_getD_eq_some hl
              simpa using hnn _ hrowmem _ hcm
            constructor
            · exact le_min (div_nonneg hm0 (by norm_num)) (by norm_num)
            · calc min (m / 5) 0.8 ≤ 0.8 := min_le_right _ _
                _ ≤ 1 := by norm_num
  · intro grid w h minM maxM b hfull
    simp only [AppJs.heatmapPoints, List.length_flatMap]
    rw [List.map_congr_left (g := fun _ => w) ?_]
    · simp [List.map_const, List.sum_replicate, smul_eq_mul, mul_comm]
    · intro j hj
      rw [Function.comp_apply]
      refine Eq.trans (length_filterMap_of_isSome ?_) (List.length_range w)
      intro i hi
      cases hl : (grid.getD j []).getD i none with
      | none =>
        have hv := hfull j (List.mem_range.mp hj) i (List.mem_range.mp hi)
        rw [hl] at hv
        simp at hv
      | some v => simp [hl]
  · intro grid w h minM maxM b p hp
    simp only [AppJs.heatmapPoints] at hp
    obtain ⟨j, hj, hp2⟩ := List.mem_flatMap.mp hp
    obtain ⟨i, hi, hp3⟩ := List.mem_filterMap.mp hp2
    cases hl : (grid.getD j []).getD i none with
    | none => rw [hl] at hp3; simp at hp3
    | some v =>
      rw [hl] at hp3
      dsimp only at hp3
      injection hp3 with hp3
      subst hp3
      unfold AppJs.getViridisT
      exact ⟨le_max_left 0 _, max_le (by norm_num) (min_le_left _ _)⟩

/-- C1 witness: the amended count and intensity bounds instantiated on
the scenario grid `[[1,2],[3,4]]`. -/
theorem c1_heatmap_count_witness :
    ((Part000.heatmapPoints grid24 b01).length =
        Part000.nonzeroCellCount grid24) ∧
    (0 ≤ p24.alpha ∧ p24.alpha ≤ 1) ∧
    ((AppJs.heatmapPoints grid24 2 2 1 4 b01).length = 2 * 2) ∧
    (0 ≤ q24.t ∧ q24.t ≤ 1) :=
  ⟨c1_heatmap_count_and_intensity.1 grid24 b01,
    c1_heatmap_count_and_intensity.2.1 grid24 b01 p24
      (by
        intro row hr c hc
        simp only [grid24, gridRow0, gridRest] at hr
        fin_cases hr <;> fin_cases hc <;> norm_num)
      (by
        simp only [grid24, gridRow0, gridRest, b01, p24,
          Part000.heatmapPoints]
        norm_num [List.range_succ, List.flatMap_cons, List.flatMap_nil,
          List.filterMap_cons, List.getD_cons_zero, List.getD_cons_succ,
          List.mem_cons, Part000.RPoint.mk.injEq, min_def]),
    c1_heatmap_count_and_intensity.2.2.1 grid24 2 2 1 4 b01
      (by
        intro j hj i hi
        interval_cases j <;> interval_cases i <;>
          simp [grid24, gridRow0, gridRest]),
    c1_heatmap_count_and_intensity.2.2.2 grid24 2 2 1 4 b01 q24
      (by
        simp only [grid24, gridRow0, gridRest, b01, q24,
          AppJs.heatmapPoints]
        norm_num [List.range_succ, List.flatMap_cons, List.flatMap_nil,
          List.filterMap_cons, List.getD_cons_zero, List.getD_cons_succ,
          List.mem_cons, AppJs.RPoint.mk.injEq])⟩
